import Mathlib

/-!
Verification of the Diario moderation/engagement core (`src/server.py`).

Shallow embedding of the moderation and engagement state machine of the
anonymous posting board: the SQLite tables become Lean lists of rows, each
HTTP handler becomes a pure state-transition function returning a result
value (the JSON response content) together with the new store.

Modelling conventions, matching the source:
* SQLite `INTEGER` 0/1 flags become `Bool`; vote values and stored counters
  (which admin deltas can drive through `max(0, ...)`) are `Int`; stored
  timestamps (ISO-8601 strings, compared lexicographically, which agrees
  with chronological order) are `Nat`.
* `SELECT ... WHERE id=?` + `fetchone` is `List.find?`; `DELETE` filters;
  `SUM(CASE WHEN vote=1 THEN 1 ELSE 0)` and `COUNT(*)` are `countP`.
* The identifier `(type, value)` pair from `get_identifier` and the
  already-sanitized report `reason` arrive as explicit `String` arguments:
  identity resolution and the regex sanitizer run at the request boundary
  and no property below depends on their output's content.
* The source imports the module (`import datetime`, line 12) yet seven call
  sites read the clock as `datetime.now(datetime.UTC)` on that module
  (lines 420, 463, 486, 498, 568, 598, 661); the module has no `now`
  attribute on any Python version, so each such line raises
  `AttributeError`.  An unhandled raise aborts the request (HTTP 500)
  before any subsequent database statement: the affected handlers are
  embedded up to that point and then return the `serverError` result with
  the store unchanged.  Handlers that spell the call correctly as
  `datetime.datetime.now` (`cleanup_deleted_entries` line 272,
  `delete_entry_admin` line 808, `adjust_entry_votes` line 885) behave
  normally and are embedded in full.
* In `api_report`/`api_comment_report`, the sanitized `reason` and the
  request-time slot `now` are kept in the signature as request data; no
  reachable branch stores them — the crash at lines 463/661 sits before
  the `INSERT`, and the branches that do answer (not-found, already
  archived, already reported) return before those lines.
* `api_entries` parses its limit with `int(request.args.get(...))`, which
  admits negative integers, and SQLite executes a negative `LIMIT` as "no
  upper bound"; the limit is therefore an `Int` and a negative effective
  limit returns the whole sorted selection.
-/

/-- A row of the `entries` table. -/
structure Entry where
  id : Nat
  uniqueId : String
  content : String
  tags : String
  images : Option String
  video : Option String
  upvotes : Int
  downvotes : Int
  ts : Nat
  archived : Bool
  deleted : Bool
  deletedAt : Option Nat
  isPinned : Bool
  viewCount : Nat
  manipulated : Bool
  manipulatedAt : Option Nat
  browserInfo : Option String
deriving Repr, DecidableEq

/-- A row of the `votes` table (entry votes). -/
structure VoteRow where
  entryId : Nat
  identifier : String
  identifierType : String
  vote : Int
  ts : Nat
deriving Repr, DecidableEq

/-- A row of the `reports` table (entry reports). -/
structure ReportRow where
  entryId : Nat
  identifier : String
  identifierType : String
  reason : String
  ts : Nat
deriving Repr, DecidableEq

/-- A row of the `comments` table. -/
structure Comment where
  id : Nat
  entryId : Nat
  content : String
  identifier : String
  identifierType : String
  upvotes : Int
  downvotes : Int
  deleted : Bool
  ts : Nat
deriving Repr, DecidableEq

/-- A row of the `comment_votes` table. -/
structure CommentVoteRow where
  commentId : Nat
  identifier : String
  identifierType : String
  vote : Int
  ts : Nat
deriving Repr, DecidableEq

/-- A row of the `comment_reports` table. -/
structure CommentReportRow where
  commentId : Nat
  identifier : String
  identifierType : String
  reason : String
  ts : Nat
deriving Repr, DecidableEq

/-- The durable state: all six tables of the SQLite database. -/
structure Store where
  entries : List Entry
  votes : List VoteRow
  reports : List ReportRow
  comments : List Comment
  commentVotes : List CommentVoteRow
  commentReports : List CommentReportRow
deriving Repr, DecidableEq

/-- SQL lookup `SELECT ... FROM entries WHERE id=?` followed by `fetchone`. -/
def findEntry (st : Store) (entryId : Nat) : Option Entry :=
  st.entries.find? (fun e => e.id == entryId)

/-- SQL lookup `SELECT ... FROM comments WHERE id=?` followed by `fetchone`. -/
def findComment (st : Store) (commentId : Nat) : Option Comment :=
  st.comments.find? (fun c => c.id == commentId)

/-- SQL aggregate `SUM(CASE WHEN vote=1 THEN 1 ELSE 0 END) ... WHERE
entry_id=?` (with the NULL-to-0 guard), as computed for display by the
listing query (src/server.py:368). -/
def upCount (l : List VoteRow) (entryId : Nat) : Nat :=
  l.countP (fun r => r.entryId == entryId && r.vote == 1)

/-- SQL aggregate `SUM(CASE WHEN vote=-1 THEN 1 ELSE 0 END) ... WHERE
entry_id=?` (src/server.py:369). -/
def downCount (l : List VoteRow) (entryId : Nat) : Nat :=
  l.countP (fun r => r.entryId == entryId && r.vote == -1)

/-- SQL aggregate `SUM(CASE WHEN vote=1 THEN 1 ELSE 0 END) ... WHERE
comment_id=?`, as computed for display by the comment listing
(src/server.py:522). -/
def commentUpCount (l : List CommentVoteRow) (commentId : Nat) : Nat :=
  l.countP (fun r => r.commentId == commentId && r.vote == 1)

/-- SQL aggregate `SUM(CASE WHEN vote=-1 THEN 1 ELSE 0 END) ... WHERE
comment_id=?` (src/server.py:523). -/
def commentDownCount (l : List CommentVoteRow) (commentId : Nat) : Nat :=
  l.countP (fun r => r.commentId == commentId && r.vote == -1)

/-- Possible outcomes of `POST /api/vote` and `POST /api/comment-vote`:
the three early returns, and the unhandled `AttributeError` (HTTP 500)
raised by the timestamp line that every surviving request reaches. -/
inductive VoteResult where
  | invalidVote
  | notFound
  | entryArchived
  | serverError
deriving Repr, DecidableEq

/-- Handler `api_vote` (src/server.py:401-438): cast an entry vote.  The
vote value, the entry's existence and its archived flag are checked (the
`deleted` flag is not consulted).  A request that passes all three checks
then executes line 420, `ts = datetime.now(datetime.UTC).isoformat()`,
where `datetime` is the module: this raises `AttributeError` and the
request dies with an unhandled 500 before the votes table is read or
written.  The duplicate lookup, insert, flip and tally code at lines
422-438 is unreachable. -/
def api_vote (st : Store) (entryId : Nat) (vote : Int) (ident idType : String) :
    VoteResult × Store :=
  if ¬(vote = 1 ∨ vote = -1) then (.invalidVote, st)
  else
    match findEntry st entryId with
    | none => (.notFound, st)
    | some row =>
      if row.archived then (.entryArchived, st)
      else (.serverError, st)

/-- Handler `api_comment_vote` (src/server.py:579-631): cast a comment
vote.  The vote value and the comment's existence are checked; a request
that passes both then executes line 598, the same
`datetime.now(datetime.UTC)` call on the module, and dies with an
unhandled 500 before the comment_votes table is read or written.  Lines
600-631 are unreachable. -/
def api_comment_vote (st : Store) (commentId : Nat) (vote : Int)
    (ident idType : String) : VoteResult × Store :=
  if ¬(vote = 1 ∨ vote = -1) then (.invalidVote, st)
  else
    match findComment st commentId with
    | none => (.notFound, st)
    | some _ => (.serverError, st)

/-- Row predicate for the report-deduplication key. -/
def reportKey (entryId : Nat) (ident idType : String) (r : ReportRow) : Bool :=
  r.entryId == entryId && r.identifier == ident && r.identifierType == idType

/-- SQL lookup `SELECT id FROM reports WHERE entry_id=? AND identifier=? AND identifier_type=?`. -/
def findReport (l : List ReportRow) (entryId : Nat) (ident idType : String) :
    Option ReportRow :=
  l.find? (reportKey entryId ident idType)

/-- SQL aggregate `SELECT COUNT(*) FROM reports WHERE entry_id=?`. -/
def reportCount (l : List ReportRow) (entryId : Nat) : Nat :=
  l.countP (fun r => r.entryId == entryId)

/-- The JSON object the archival block would write to
`archive/entry-<id>.json` (src/server.py:486); building it uses the broken
module-level clock call, so it is never produced. -/
structure ArchiveSnapshot where
  id : Nat
  content : String
  tags : String
  ts : Nat
  archivedAt : Nat
  reports : Nat
  upvotes : Nat
deriving Repr, DecidableEq

/-- The line the archival block would append to
`archive_logs/archive.log` (src/server.py:498); its format string also uses
the broken clock call, so it is never produced. -/
structure AuditLogLine where
  ts : Nat
  entryId : Nat
  reports : Nat
  upvotes : Nat
deriving Repr, DecidableEq

/-- Possible outcomes of `POST /api/report`: the three reachable responses,
the unhandled 500 from the timestamp line that every fresh report reaches,
and the shape of the fresh-path success body
`{'message':'ok','reports':...,'archived':...}` (src/server.py:505), which
the crash at line 463 makes unreachable. -/
inductive ReportResult where
  | notFound
  | alreadyArchived
  | alreadyReported
  | serverError
  | ok (reports : Nat) (archived : Bool)
      (snapshot : Option ArchiveSnapshot) (logLine : Option AuditLogLine)
deriving Repr, DecidableEq

/-- The `reports` field of the response body of `POST /api/report`: present
only in the (unreachable) `{'message':'ok','reports':...,'archived':...}`
branch; the `Entry not found`, `Entry already archived` and
`Already reported` responses carry only a message, and a 500 carries no
body fields at all. -/
def reportResponseReports : ReportResult → Option Nat
  | .ok r _ _ _ => some r
  | _ => none

/-- Handler `api_report` (src/server.py:441-505): file an entry report.  A
missing entry, an archived entry and a duplicate identifier all answer
before line 463 and leave the store untouched.  A fresh report then
executes line 463, `ts = datetime.now(datetime.UTC).isoformat()` on the
module, which raises `AttributeError`: the request dies with an unhandled
500 before the `INSERT` at line 464, so no report row is ever filed and
the moderation policy at lines 467-505 never runs.  (Even inside that dead
archival block, the snapshot object at line 486 and the log line at line
498 use the same broken call under the `try` at 475 whose
`except Exception: pass` swallows it, so neither file could ever be
written.) -/
def api_report (st : Store) (entryId : Nat) (reason : String)
    (ident idType : String) (now : Nat) : ReportResult × Store :=
  match findEntry st entryId with
  | none => (.notFound, st)
  | some row =>
    if row.archived then (.alreadyArchived, st)
    else
      match findReport st.reports entryId ident idType with
      | some _ => (.alreadyReported, st)
      | none => (.serverError, st)

/-- Row predicate for the comment-report-deduplication key. -/
def commentReportKey (commentId : Nat) (ident idType : String)
    (r : CommentReportRow) : Bool :=
  r.commentId == commentId && r.identifier == ident && r.identifierType == idType

/-- SQL lookup `SELECT id FROM comment_reports WHERE comment_id=? AND identifier=? AND identifier_type=?`. -/
def findCommentReport (l : List CommentReportRow) (commentId : Nat)
    (ident idType : String) : Option CommentReportRow :=
  l.find? (commentReportKey commentId ident idType)

/-- Possible outcomes of `POST /api/comment-report`: the two reachable
responses, the unhandled 500 from the timestamp line that every fresh
report reaches, and the shape of the fresh-path success body
`{'message':'ok','reports':...,'deleted':...}` (src/server.py:685), which
the crash at line 661 makes unreachable. -/
inductive CommentReportResult where
  | notFound
  | alreadyReported
  | serverError
  | ok (reports : Nat) (deleted : Bool)
deriving Repr, DecidableEq

/-- The `reports` field of the response body of `POST /api/comment-report`:
present only in the (unreachable) `{'message':'ok','reports':...}` branch. -/
def commentReportResponseReports : CommentReportResult → Option Nat
  | .ok r _ => some r
  | _ => none

/-- Handler `api_comment_report` (src/server.py:634-685): file a comment
report.  A missing comment and a duplicate identifier answer before line
661 and leave the store untouched.  A fresh report then executes line 661,
the broken `datetime.now(datetime.UTC)` call, and dies with an unhandled
500 before the `INSERT` at line 662: no comment report is ever filed and
the hard-delete policy at lines 668-685 never runs. -/
def api_comment_report (st : Store) (commentId : Nat) (reason : String)
    (ident idType : String) (now : Nat) : CommentReportResult × Store :=
  match findComment st commentId with
  | none => (.notFound, st)
  | some _ =>
    match findCommentReport st.commentReports commentId ident idType with
    | some _ => (.alreadyReported, st)
    | none => (.serverError, st)

/-- Possible JSON responses of `POST /api/admin/entries/<id>/adjust-votes`
(after the admin token check, which is an external collaborator). -/
inductive AdjustResult where
  | notFound
  | ok (upvotes downvotes : Int)
deriving Repr, DecidableEq

/-- Admin handler `adjust_entry_votes` (src/server.py:859-896): apply
signed deltas to the stored counters, clamped at zero
(`max(0, current + change)`), and mark the entry `manipulated=1,
manipulated_at=now`.  This handler spells the clock call correctly
(`datetime.datetime.now`, line 885) and completes normally. -/
def adjust_entry_votes (st : Store) (entryId : Nat)
    (upvoteChange downvoteChange : Int) (now : Nat) : AdjustResult × Store :=
  match findEntry st entryId with
  | none => (.notFound, st)
  | some row =>
    let newUpvotes := max 0 (row.upvotes + upvoteChange)
    let newDownvotes := max 0 (row.downvotes + downvoteChange)
    (.ok newUpvotes newDownvotes,
     { st with entries := st.entries.map (fun e =>
         if e.id == entryId then
           { e with upvotes := newUpvotes, downvotes := newDownvotes,
                    manipulated := true, manipulatedAt := some now }
         else e) })

/-- Reaper `cleanup_deleted_entries` (src/server.py:269-277): the
recycle-bin sweep, `DELETE FROM entries WHERE deleted=1 AND deleted_at <
cutoff` (correct clock call at line 272).  A NULL `deleted_at` compares as
NULL in SQL, so such rows are kept. -/
def cleanup_deleted_entries (st : Store) (cutoff : Nat) : Store :=
  { st with entries := st.entries.filter (fun e =>
      !(e.deleted && (match e.deletedAt with
                      | some d => decide (d < cutoff)
                      | none => false))) }

/-- Limit parsing `min(100, int(request.args.get('limit', '20') or '20'))`
(src/server.py:360): the parsed limit (absent defaults to 20) capped at
100.  Python's `int()` accepts negative limits, and `min` keeps them, so
the effective limit is a signed integer. -/
def parseLimit (limit : Option Int) : Int :=
  min 100 (limit.getD 20)

/-- Ordering `ORDER BY e.is_pinned DESC, e.id DESC` as a may-precede
relation: `a` may come before `b` iff `a` is at least as pinned, and on a
tie has at least as large an id. -/
def entryOrderGE (a b : Entry) : Bool :=
  (a.isPinned && !b.isPinned) || (a.isPinned == b.isPinned && b.id ≤ a.id)

/-- Handler `api_entries` (src/server.py:354-398): the public listing.
Runs the reaper, then selects `WHERE archived=0 AND deleted=0`, sorted
pinned-first then most-recent-first (ids are assigned in creation order),
with `LIMIT ?`.  SQLite treats a negative `LIMIT` value as no upper bound,
so a negative parsed limit returns every selected row.  The response then
projects each selected row to JSON; the projection does not change which
rows appear or their order. -/
def api_entries (st : Store) (limit : Option Int) (cutoff : Nat) :
    List Entry × Store :=
  let st1 := cleanup_deleted_entries st cutoff
  let visible := st1.entries.filter (fun e => !e.archived && !e.deleted)
  let sorted := visible.mergeSort entryOrderGE
  let lim := parseLimit limit
  (if lim < 0 then sorted else sorted.take lim.toNat, st1)

/-! Concrete stores used by the evaluations, counterexamples and
witnesses below. -/

/-- A plain active entry used by the concrete instantiations below. -/
def sampleEntry : Entry :=
  { id := 1, uniqueId := "u1", content := "hello", tags := "", images := none,
    video := none, upvotes := 0, downvotes := 0, ts := 10, archived := false,
    deleted := false, deletedAt := none, isPinned := false, viewCount := 0,
    manipulated := false, manipulatedAt := none, browserInfo := none }

/-- A plain comment on `sampleEntry` used by the concrete instantiations. -/
def sampleComment : Comment :=
  { id := 1, entryId := 1, content := "hi", identifier := "z",
    identifierType := "ip", upvotes := 0, downvotes := 0, deleted := false,
    ts := 11 }

/-- The entry of `storeOverridden`: admin-overridden counters 100/50 with
the `manipulated` flag set. -/
def overriddenEntry : Entry :=
  { sampleEntry with
    upvotes := 100
    downvotes := 50
    manipulated := true
    manipulatedAt := some 12 }

/-- A store whose single entry is `overriddenEntry` and whose vote ledger
is empty. -/
def storeOverridden : Store :=
  ⟨[overriddenEntry], [], [], [], [], []⟩

/-- A fresh store: one active entry, one comment, empty ledgers. -/
def storeFresh : Store :=
  ⟨[sampleEntry], [], [], [sampleComment], [], []⟩

/-- A store with one existing +1 entry vote and one existing +1 comment
vote. -/
def storeFlip : Store :=
  ⟨[sampleEntry], [⟨1, "a", "ip", 1, 5⟩], [], [sampleComment],
    [⟨1, "b", "ip", 1, 6⟩], []⟩

/-- A soft-deleted (but not archived) entry. -/
def softDeletedEntry : Entry :=
  { sampleEntry with
    deleted := true
    deletedAt := some 20 }

/-- A store whose single entry sits in the recycle bin. -/
def storeSoftDeleted : Store :=
  ⟨[softDeletedEntry], [], [], [], [], []⟩

/-- A store with one active entry carrying one ledger upvote and no
reports: a fresh report would put its report/upvote ratio at 1 > 0.25. -/
def storeAboutToArchive : Store :=
  ⟨[sampleEntry], [⟨1, "v", "ip", 1, 6⟩], [], [], [], []⟩

/-- A store whose comment has ten ledger upvotes and one prior report: a
fresh second report would put its ratio at 0.2 > 0.1. -/
def storeCommentVoted : Store :=
  ⟨[sampleEntry], [], [], [sampleComment],
    [⟨1, "u1", "ip", 1, 1⟩, ⟨1, "u2", "ip", 1, 1⟩, ⟨1, "u3", "ip", 1, 1⟩,
      ⟨1, "u4", "ip", 1, 1⟩, ⟨1, "u5", "ip", 1, 1⟩, ⟨1, "u6", "ip", 1, 1⟩,
      ⟨1, "u7", "ip", 1, 1⟩, ⟨1, "u8", "ip", 1, 1⟩, ⟨1, "u9", "ip", 1, 1⟩,
      ⟨1, "u10", "ip", 1, 1⟩],
    [⟨1, "r1", "ip", "spam", 2⟩]⟩

/-- A store holding one prior entry report and one prior comment report,
both from identifier ("a"/"c", ip). -/
def storeReported : Store :=
  ⟨[sampleEntry], [], [⟨1, "a", "ip", "spam", 7⟩], [sampleComment], [],
    [⟨1, "c", "ip", "rude", 8⟩]⟩

/-- An archived entry and the store holding it. -/
def archivedEntry : Entry :=
  { sampleEntry with archived := true }

/-- A store whose single entry is archived. -/
def storeArchived : Store :=
  ⟨[archivedEntry], [], [], [], [], []⟩

/-- An entry whose stored counters read upvotes 2, downvotes 3. -/
def adjustableEntry : Entry :=
  { sampleEntry with
    upvotes := 2
    downvotes := 3 }

/-- A store holding `adjustableEntry`. -/
def storeAdjustable : Store :=
  ⟨[adjustableEntry], [], [], [], [], []⟩

/-- An old pinned entry (id 1, ts 10). -/
def entryPinnedOld : Entry :=
  { sampleEntry with isPinned := true }

/-- A newer unpinned entry (id 2, ts 30). -/
def entryNewerUnpinned : Entry :=
  { sampleEntry with
    id := 2
    uniqueId := "u2"
    ts := 30 }

/-- A store holding the newer unpinned entry and the older pinned one. -/
def storeListing : Store :=
  ⟨[entryNewerUnpinned, entryPinnedOld], [], [], [], [], []⟩

/-! Claim theorems. -/

/-- C1: the claimed vote behaviour (first vote inserts a row, repeat is a
no-op, opposite value overwrites in place) describes code the program
cannot reach: every vote request that passes the existence and archived
checks dies at the broken timestamp line (src/server.py:420 resp. 598)
with an unhandled `AttributeError`, so neither vote ledger is ever read or
written — the store is returned unchanged on every path, and a first vote
on a fresh store answers 500 without inserting anything. -/
theorem castVote_crashes_before_ledger :
    (∀ (st : Store) (entryId : Nat) (vote : Int) (ident idType : String),
      (api_vote st entryId vote ident idType).snd = st) ∧
    (∀ (st : Store) (commentId : Nat) (vote : Int) (ident idType : String),
      (api_comment_vote st commentId vote ident idType).snd = st) ∧
    api_vote storeFresh 1 1 "a" "ip" = (VoteResult.serverError, storeFresh) ∧
    api_comment_vote storeFresh 1 1 "a" "ip" =
      (VoteResult.serverError, storeFresh) := by
  refine ⟨?_, ?_, by decide, by decide⟩
  · intro st entryId vote ident idType
    rw [api_vote]
    by_cases hv : ¬(vote = 1 ∨ vote = -1)
    · rw [if_pos hv]
    rw [if_neg hv]
    cases hfe : findEntry st entryId with
    | none => rfl
    | some row =>
      dsimp only
      by_cases ha : row.archived = true
      · rw [if_pos ha]
      · rw [if_neg ha]
  · intro st commentId vote ident idType
    rw [api_comment_vote]
    by_cases hv : ¬(vote = 1 ∨ vote = -1)
    · rw [if_pos hv]
    rw [if_neg hv]
    cases hfc : findComment st commentId with
    | none => rfl
    | some cm => rfl

/-- C2: the entry moderation policy can never fire: a fresh report dies at
the broken timestamp line (src/server.py:463) before the `INSERT`, so
`api_report` leaves the store unchanged on every path; on a store whose
entry has one ledger upvote (so the claimed ratio 1/1 > 0.25 would
archive), the fresh report answers 500 and the entry stays unarchived with
no snapshot or log line emitted. -/
theorem report_policy_never_runs :
    (∀ (st : Store) (entryId : Nat) (reason ident idType : String) (now : Nat),
      (api_report st entryId reason ident idType now).snd = st) ∧
    api_report storeAboutToArchive 1 "bad" "a" "ip" 31 =
      (ReportResult.serverError, storeAboutToArchive) ∧
    findEntry (api_report storeAboutToArchive 1 "bad" "a" "ip" 31).snd 1 =
      some sampleEntry ∧
    reportResponseReports
      (api_report storeAboutToArchive 1 "bad" "a" "ip" 31).fst = none := by
  refine ⟨?_, by decide, by decide, by decide⟩
  intro st entryId reason ident idType now
  rw [api_report]
  cases hfe : findEntry st entryId with
  | none => rfl
  | some row =>
    dsimp only
    by_cases ha : row.archived = true
    · rw [if_pos ha]
    rw [if_neg ha]
    cases hr : findReport st.reports entryId ident idType with
    | some rep => rfl
    | none => rfl

/-- C3: no successful castVote exists to return any counts: on the
manipulated entry with stored override counters (100, 50), the vote
request passes the checks and then dies at the broken timestamp line
(src/server.py:420) with an unhandled 500, store unchanged — and the dead
tally code at lines 433-438 recomputes from the ledger unconditionally, so
the stored counters would not be consulted even with the clock call
repaired. -/
theorem manipulated_entry_vote_crashes :
    (findEntry storeOverridden 1).map Entry.manipulated = some true ∧
    (findEntry storeOverridden 1).map Entry.upvotes = some 100 ∧
    (findEntry storeOverridden 1).map Entry.downvotes = some 50 ∧
    api_vote storeOverridden 1 1 "a" "ip" =
      (VoteResult.serverError, storeOverridden) := by
  decide

/-- C4: the comment hard-delete policy can never fire: a fresh comment
report dies at the broken timestamp line (src/server.py:661) before the
`INSERT`, so `api_comment_report` leaves the store unchanged on every
path; on a store whose comment has ten ledger upvotes and one prior report
(so the claimed ratio 2/10 > 0.1 would delete it), the fresh second report
answers 500 and the comment row survives. -/
theorem comment_report_policy_never_runs :
    (∀ (st : Store) (commentId : Nat) (reason ident idType : String)
        (now : Nat),
      (api_comment_report st commentId reason ident idType now).snd = st) ∧
    api_comment_report storeCommentVoted 1 "spam" "r2" "ip" 3 =
      (CommentReportResult.serverError, storeCommentVoted) ∧
    findComment
      (api_comment_report storeCommentVoted 1 "spam" "r2" "ip" 3).snd 1 =
      some sampleComment := by
  refine ⟨?_, by decide, by decide⟩
  intro st commentId reason ident idType now
  rw [api_comment_report]
  cases hfc : findComment st commentId with
  | none => rfl
  | some cm =>
    dsimp only
    cases hr : findCommentReport st.commentReports commentId ident idType with
    | some rep => rfl
    | none => rfl

/-- C5: the program never flips a vote: casting the opposite value where
the identifier already holds a +1 row dies at the broken timestamp line
(src/server.py:420 resp. 598) before the existing-vote lookup, so the net
tally changes by 0, not 2, for entry votes and comment votes alike. -/
theorem oppositeVote_crash_leaves_tally_unchanged :
    api_vote storeFlip 1 (-1) "a" "ip" = (VoteResult.serverError, storeFlip) ∧
    upCount (api_vote storeFlip 1 (-1) "a" "ip").snd.votes 1 =
      upCount storeFlip.votes 1 ∧
    downCount (api_vote storeFlip 1 (-1) "a" "ip").snd.votes 1 =
      downCount storeFlip.votes 1 ∧
    api_comment_vote storeFlip 1 (-1) "b" "ip" =
      (VoteResult.serverError, storeFlip) ∧
    commentUpCount (api_comment_vote storeFlip 1 (-1) "b" "ip").snd.commentVotes 1 =
      commentUpCount storeFlip.commentVotes 1 ∧
    commentDownCount (api_comment_vote storeFlip 1 (-1) "b" "ip").snd.commentVotes 1 =
      commentDownCount storeFlip.commentVotes 1 := by
  decide

/-- C10: filing a report against an already-archived entry short-circuits
with the success response `Entry already archived`, leaving the whole store
(reports table and entry rows included) untouched — the moderation policy
is never evaluated and no snapshot or log line is emitted. -/
theorem archived_entry_report_is_noop (st : Store) (entryId : Nat)
    (reason ident idType : String) (now : Nat) (row : Entry)
    (hfe : findEntry st entryId = some row) (ha : row.archived = true) :
    api_report st entryId reason ident idType now =
      (ReportResult.alreadyArchived, st) := by
  rw [api_report, hfe]
  dsimp only
  rw [if_pos ha]

/-- C6 counterexample: the duplicate-report path answers success with
`Already reported` and leaves the count unchanged, but its response body
carries no `reports` field at all — it does not return the updated report
count, contradicting the claim's final conjunct. -/
theorem duplicate_report_returns_no_count :
    (api_report storeReported 1 "again" "a" "ip" 9).fst =
      ReportResult.alreadyReported ∧
    reportCount (api_report storeReported 1 "again" "a" "ip" 9).snd.reports 1 = 1 ∧
    reportResponseReports (api_report storeReported 1 "again" "a" "ip" 9).fst ≠
      some (reportCount (api_report storeReported 1 "again" "a" "ip" 9).snd.reports 1) := by
  decide

/-- C6 amended: a repeated report from an identifier that already reported
the target succeeds with `Already reported`, inserts no second row and
leaves the store unchanged, but the response carries only the message — no
report count is returned. -/
theorem duplicate_report_idempotent :
    (∀ (st : Store) (entryId : Nat) (reason ident idType : String) (now : Nat)
        (row : Entry) (rep : ReportRow),
      findEntry st entryId = some row → row.archived = false →
      findReport st.reports entryId ident idType = some rep →
      api_report st entryId reason ident idType now =
        (ReportResult.alreadyReported, st) ∧
      reportResponseReports
        (api_report st entryId reason ident idType now).fst = none) ∧
    (∀ (st : Store) (commentId : Nat) (reason ident idType : String)
        (now : Nat) (cm : Comment) (rep : CommentReportRow),
      findComment st commentId = some cm →
      findCommentReport st.commentReports commentId ident idType = some rep →
      api_comment_report st commentId reason ident idType now =
        (CommentReportResult.alreadyReported, st) ∧
      commentReportResponseReports
        (api_comment_report st commentId reason ident idType now).fst = none) := by
  constructor
  · intro st entryId reason ident idType now row rep hfe ha hrep
    have h : api_report st entryId reason ident idType now =
        (ReportResult.alreadyReported, st) := by
      rw [api_report, hfe]
      dsimp only
      rw [if_neg (by simp [ha]), hrep]
    exact ⟨h, by rw [h]; rfl⟩
  · intro st commentId reason ident idType now cm rep hfc hrep
    have h : api_comment_report st commentId reason ident idType now =
        (CommentReportResult.alreadyReported, st) := by
      rw [api_comment_report, hfc]
      dsimp only
      rw [hrep]
    exact ⟨h, by rw [h]; rfl⟩

theorem archived_entry_report_is_noop_witness :
    api_report storeArchived 1 "bad" "a" "ip" 30 =
      (ReportResult.alreadyArchived, storeArchived) :=
  archived_entry_report_is_noop storeArchived 1 "bad" "a" "ip" 30
    archivedEntry (by decide) (by decide)

theorem duplicate_report_idempotent_witness :
    (api_report storeReported 1 "again" "a" "ip" 9 =
        (ReportResult.alreadyReported, storeReported) ∧
      reportResponseReports
        (api_report storeReported 1 "again" "a" "ip" 9).fst = none) ∧
    (api_comment_report storeReported 1 "again" "c" "ip" 9 =
        (CommentReportResult.alreadyReported, storeReported) ∧
      commentReportResponseReports
        (api_comment_report storeReported 1 "again" "c" "ip" 9).fst = none) :=
  ⟨duplicate_report_idempotent.1 storeReported 1 "again" "a" "ip" 9 sampleEntry
      ⟨1, "a", "ip", "spam", 7⟩ (by decide) (by decide) (by decide),
    duplicate_report_idempotent.2 storeReported 1 "again" "c" "ip" 9 sampleComment
      ⟨1, "c", "ip", "rude", 8⟩ (by decide) (by decide)⟩

/-- C9: a vote on a soft-deleted, non-archived entry does pass the
existence and archived checks (the answer is neither `Entry not found` nor
`Entry archived`), but contrary to the claim it does not succeed and does
not mutate the ledger: the request dies at the broken timestamp line
(src/server.py:420) with an unhandled 500 and the votes table is
untouched. -/
theorem softDeleted_vote_crashes :
    api_vote storeSoftDeleted 1 1 "a" "ip" =
      (VoteResult.serverError, storeSoftDeleted) ∧
    (api_vote storeSoftDeleted 1 1 "a" "ip").fst ≠ VoteResult.notFound ∧
    (api_vote storeSoftDeleted 1 1 "a" "ip").fst ≠ VoteResult.entryArchived ∧
    (api_vote storeSoftDeleted 1 1 "a" "ip").snd.votes =
      storeSoftDeleted.votes := by
  decide

/-- C7: for an existing entry, adjust-votes answers with counters clamped
at zero (`max(0, current + delta)` independently per counter, so neither
goes negative), and every stored row with that id now carries the clamped
counters with `manipulated = true` and `manipulated_at = now`. -/
theorem adjust_entry_votes_clamps_at_zero (st : Store) (entryId : Nat)
    (upvoteChange downvoteChange : Int) (now : Nat) (row : Entry)
    (hfe : findEntry st entryId = some row) :
    (adjust_entry_votes st entryId upvoteChange downvoteChange now).fst =
      AdjustResult.ok (max 0 (row.upvotes + upvoteChange))
        (max 0 (row.downvotes + downvoteChange)) ∧
    0 ≤ max 0 (row.upvotes + upvoteChange) ∧
    0 ≤ max 0 (row.downvotes + downvoteChange) ∧
    (∀ e' ∈ (adjust_entry_votes st entryId upvoteChange downvoteChange now).snd.entries,
      e'.id = entryId →
        e'.upvotes = max 0 (row.upvotes + upvoteChange) ∧
        e'.downvotes = max 0 (row.downvotes + downvoteChange) ∧
        e'.manipulated = true ∧ e'.manipulatedAt = some now) := by
  rw [adjust_entry_votes, hfe]
  dsimp only
  refine ⟨rfl, le_max_left 0 _, le_max_left 0 _, ?_⟩
  intro e' he' hid
  obtain ⟨a, ha', rfl⟩ := List.mem_map.mp he'
  by_cases hco : (a.id == entryId) = true
  · rw [if_pos hco]
    exact ⟨rfl, rfl, rfl, rfl⟩
  · rw [if_neg hco] at hid ⊢
    exact absurd hid (by simpa using hco)

theorem adjust_entry_votes_clamps_at_zero_witness :
    ((adjust_entry_votes storeAdjustable 1 5 (-100) 40).fst =
      AdjustResult.ok (max 0 (adjustableEntry.upvotes + 5))
        (max 0 (adjustableEntry.downvotes + -100)) ∧
    0 ≤ max 0 (adjustableEntry.upvotes + 5) ∧
    0 ≤ max 0 (adjustableEntry.downvotes + -100) ∧
    (∀ e' ∈ (adjust_entry_votes storeAdjustable 1 5 (-100) 40).snd.entries,
      e'.id = 1 →
        e'.upvotes = max 0 (adjustableEntry.upvotes + 5) ∧
        e'.downvotes = max 0 (adjustableEntry.downvotes + -100) ∧
        e'.manipulated = true ∧ e'.manipulatedAt = some 40)) ∧
    (adjust_entry_votes storeAdjustable 1 5 (-100) 40).fst =
      AdjustResult.ok 7 0 :=
  ⟨adjust_entry_votes_clamps_at_zero storeAdjustable 1 5 (-100) 40
      adjustableEntry (by decide),
    by decide⟩

/-- The listing order is transitive. -/
theorem entryOrderGE_trans (a b c : Entry) (hab : entryOrderGE a b = true)
    (hbc : entryOrderGE b c = true) : entryOrderGE a c = true := by
  cases hpa : a.isPinned <;> cases hpb : b.isPinned <;> cases hpc : c.isPinned <;>
    simp_all [entryOrderGE] <;> omega

/-- The listing order is total. -/
theorem entryOrderGE_total (a b : Entry) :
    (entryOrderGE a b || entryOrderGE b a) = true := by
  cases hpa : a.isPinned <;> cases hpb : b.isPinned <;>
    simp_all [entryOrderGE] <;> omega

/-- C8 counterexample: a requested limit of -1 parses to an effective
limit of -1, and SQLite's negative `LIMIT` disables the cap, so on a store
with two visible entries the listing has 2 rows — its size is not bounded
by the requested limit (nor by 100 in the claimed sense of a cap applied
to every request). -/
theorem listing_cap_fails_on_negative_limit :
    parseLimit (some (-1)) = -1 ∧
    (api_entries storeListing (some (-1)) 0).fst.length = 2 ∧
    ¬(((api_entries storeListing (some (-1)) 0).fst.length : Int) ≤
        parseLimit (some (-1))) := by
  have hlen : (api_entries storeListing (some (-1)) 0).fst.length = 2 := by
    rw [api_entries]
    dsimp only
    rw [if_pos (by decide)]
    rw [List.length_mergeSort]
    decide
  refine ⟨by decide, hlen, ?_⟩
  rw [hlen]
  decide

/-- C8 amended: the public listing holds only non-archived,
non-soft-deleted entries and is ordered pinned-first then
most-recent-first (a pinned entry never appears after an unpinned one, so
a pinned older entry precedes an unpinned newer one); its size is capped
at `min(100, limit)` — default 20, maximum 100 — whenever the parsed
limit is nonnegative, while a negative requested limit disables the cap
entirely and the listing is the whole filtered, sorted selection. -/
theorem api_entries_listing_spec (st : Store) (limit : Option Int)
    (cutoff : Nat) :
    (0 ≤ parseLimit limit →
      (api_entries st limit cutoff).fst.length ≤ (parseLimit limit).toNat) ∧
    (parseLimit limit < 0 →
      (api_entries st limit cutoff).fst =
        ((cleanup_deleted_entries st cutoff).entries.filter
          (fun e => !e.archived && !e.deleted)).mergeSort entryOrderGE) ∧
    (∀ e ∈ (api_entries st limit cutoff).fst,
      e.archived = false ∧ e.deleted = false) ∧
    (api_entries st limit cutoff).fst.Pairwise
      (fun a b => entryOrderGE a b = true) ∧
    (∀ (i j : Fin (api_entries st limit cutoff).fst.length), i < j →
      ((api_entries st limit cutoff).fst.get j).isPinned = true →
      ((api_entries st limit cutoff).fst.get i).isPinned = true) := by
  have hpw : (api_entries st limit cutoff).fst.Pairwise
      (fun a b => entryOrderGE a b = true) := by
    rw [api_entries]
    dsimp only
    by_cases hneg : parseLimit limit < 0
    · rw [if_pos hneg]
      exact List.sorted_mergeSort entryOrderGE_trans entryOrderGE_total _
    · rw [if_neg hneg]
      exact (List.sorted_mergeSort entryOrderGE_trans entryOrderGE_total _).sublist
        (List.take_sublist _ _)
  refine ⟨?_, ?_, ?_, hpw, ?_⟩
  · intro hge
    rw [api_entries]
    dsimp only
    rw [if_neg (by omega)]
    simp only [List.length_take]
    exact Nat.min_le_left _ _
  · intro hneg
    rw [api_entries]
    dsimp only
    rw [if_pos hneg]
  · intro e he
    rw [api_entries] at he
    dsimp only at he
    have h2 : e ∈ ((cleanup_deleted_entries st cutoff).entries.filter
        (fun e => !e.archived && !e.deleted)).mergeSort entryOrderGE := by
      by_cases hneg : parseLimit limit < 0
      · rw [if_pos hneg] at he
        exact he
      · rw [if_neg hneg] at he
        exact List.take_subset _ _ he
    have h3 := (List.mem_filter.mp (List.mem_mergeSort.mp h2)).2
    simp only [Bool.and_eq_true, Bool.not_eq_true'] at h3
    exact h3
  · intro i j hij hpj
    have hij' := List.pairwise_iff_get.mp hpw i j hij
    by_cases hpi : ((api_entries st limit cutoff).fst.get i).isPinned = true
    · exact hpi
    · rw [entryOrderGE, hpj] at hij'
      simp only [Bool.not_eq_true] at hpi
      rw [hpi] at hij'
      simp at hij'

theorem api_entries_listing_spec_witness :
    (0 ≤ parseLimit (some 20) →
      (api_entries storeListing (some 20) 0).fst.length ≤
        (parseLimit (some 20)).toNat) ∧
    (parseLimit (some 20) < 0 →
      (api_entries storeListing (some 20) 0).fst =
        ((cleanup_deleted_entries storeListing 0).entries.filter
          (fun e => !e.archived && !e.deleted)).mergeSort entryOrderGE) ∧
    (∀ e ∈ (api_entries storeListing (some 20) 0).fst,
      e.archived = false ∧ e.deleted = false) ∧
    (api_entries storeListing (some 20) 0).fst.Pairwise
      (fun a b => entryOrderGE a b = true) ∧
    (∀ (i j : Fin (api_entries storeListing (some 20) 0).fst.length), i < j →
      ((api_entries storeListing (some 20) 0).fst.get j).isPinned = true →
      ((api_entries storeListing (some 20) 0).fst.get i).isPinned = true) :=
  api_entries_listing_spec storeListing (some 20) 0
